import Mathlib

/-!
Shallow embedding of the RISC-V network-server example
(`examples/network-server/cmd/app/main.go`): a concurrent TCP chat server
with a per-connection handler goroutine (`handleConnection`), a single
broadcaster goroutine (`broadcastMessages`) with its helper
(`broadcastToAll`), and a signal-driven shutdown in `startServer`/`main`.

Connections are identified by a `ConnId` (`net.Conn` values are compared
only by identity in the source).  The registry `Server.clients` is an
association list from `ConnId` to display name.  Side effects (socket
writes, channel sends, registry accesses, closes, console prints) are
reified as an `Eff` list so that theorems can talk about which effects a
code path performs.  Interleaved executions of the goroutines are modelled
separately as traces of atomic actions (`Act`), with a validity predicate
capturing the per-goroutine program order and the channel rendezvous of
the source.
-/

/-- Identity of one accepted connection (`net.Conn` compared by identity). -/
abbrev ConnId : Type := Nat

/-- ASCII part of Go `unicode.IsSpace`, used by `strings.TrimSpace`:
space, tab, newline, vertical tab, form feed, carriage return. -/
def goIsSpace (c : Char) : Bool :=
  c = ' ' || c = '\t' || c = '\n' || c = '\x0b' || c = '\x0c' || c = '\r'

/-- Go `strings.TrimSpace` (restricted to ASCII whitespace, which is all the
server's protocol lines use): drop leading and trailing whitespace. -/
def trimSpace (s : String) : String :=
  (((s.toList.dropWhile goIsSpace).reverse.dropWhile goIsSpace).reverse).asString

/-- Lower-case one character, ASCII range (Go `strings.ToLower` restricted to
ASCII, which covers the four command keywords being compared against). -/
def lowerChar (c : Char) : Char :=
  if 'A' ≤ c && c ≤ 'Z' then Char.ofNat (c.toNat + 32) else c

/-- Go `strings.ToLower` on ASCII strings. -/
def asciiLower (s : String) : String :=
  (s.toList.map lowerChar).asString

/-- What the command interpreter decides to do with one input line
(the `switch strings.ToLower(message)` in `handleConnection`, plus the
`if message == "" { continue }` guard before it). -/
inductive LineAct : Type
  | ignore
  | help
  | timeCmd
  | clientsCmd
  | quit
  | chat (text : String)
deriving DecidableEq, Repr

/-- Classification of one raw input line, translated from `handleConnection`
lines 66-94: trim, skip empty lines, then switch on the lower-cased text;
any unrecognized text is a chat message carrying the trimmed line. -/
def classify (line : String) : LineAct :=
  let message := trimSpace line
  if message = "" then .ignore
  else
    match asciiLower message with
    | "help" => .help
    | "time" => .timeCmd
    | "clients" => .clientsCmd
    | "quit" => .quit
    | _ => .chat message

/-- The spec's classification, written from §4.1/§6 of the specification:
"For each line (after trimming whitespace), classify case-insensitively:
`help`, `time`, `clients`, `quit`; an empty line is ignored with no event;
anything else is a broadcast chat message."  Kept as a separate definition
so that `classify` (from the source) can be compared against it. -/
def specClassify (line : String) : LineAct :=
  let t := trimSpace line
  if t = "" then .ignore
  else if asciiLower t = "help" then .help
  else if asciiLower t = "time" then .timeCmd
  else if asciiLower t = "clients" then .clientsCmd
  else if asciiLower t = "quit" then .quit
  else .chat t

/-- One side effect performed by server code: a socket write, a channel send
(`newClients` / `doneClients` / `messages`), a direct registry write or read,
a connection close, a console print (`fmt.Print*`), or a `log.Printf`. -/
inductive Eff : Type
  | write (c : ConnId) (s : String)
  | sendNew (c : ConnId)
  | sendDone (c : ConnId)
  | sendMsg (s : String)
  | regInsert (c : ConnId) (name : String)
  | regRead (c : ConnId)
  | close (c : ConnId)
  | console (s : String)
  | logError (s : String)
deriving DecidableEq, Repr

/-- The chat line built by `handleConnection` line 93:
`fmt.Sprintf("[%s] %s: %s", time.Now().Format("15:04:05"), clientName, message)`. -/
def chatLine (ts name text : String) : String :=
  "[" ++ ts ++ "] " ++ name ++ ": " ++ text

/-- The six writes of the `help` command (lines 74-79). -/
def helpWrites (c : ConnId) : List Eff :=
  [ .write c "Available commands:\n"
  , .write c "  help    - Show this help\n"
  , .write c "  time    - Get current server time\n"
  , .write c "  clients - List connected clients\n"
  , .write c "  quit    - Disconnect from server\n"
  , .write c "  <text>  - Send message to all clients\n\n" ]

/-- Header line of the `clients` command output (line 83):
`fmt.Sprintf("Connected clients (%d):\n", len(s.clients))`. -/
def clientsHeader (reg : List (ConnId × String)) : String :=
  "Connected clients (" ++ toString reg.length ++ "):\n"

/-- One listing line of the `clients` command output (line 85):
`fmt.Sprintf("  - %s\n", name)`. -/
def clientNameLine (p : ConnId × String) : String :=
  "  - " ++ p.2 ++ "\n"

/-- The full text a `clients` query writes back (lines 83-87), for one
iteration order `reg` of the `s.clients` map: header, one line per name in
map-range order, blank line.  Go's map range order is unspecified and
randomized at runtime, so consecutive queries over the same map may
observe `reg` in different orders (any permutation). -/
def clientsOutput (reg : List (ConnId × String)) : String :=
  clientsHeader reg ++ String.join (reg.map clientNameLine) ++ "\n"

/-- Effects of the `clients` command (lines 83-87): the handler reads
`s.clients` directly (its length and, in map order, each name). -/
def clientsWrites (reg : List (ConnId × String)) (c : ConnId) : List Eff :=
  [ Eff.regRead c
  , Eff.write c (clientsHeader reg) ] ++
  reg.map (fun p => Eff.write c (clientNameLine p)) ++
  [Eff.write c "\n"]

/-- One iteration of the handler's message loop (the body of
`for scanner.Scan()` in lines 65-95): the effects performed for the line and
whether the loop continues (`false` exactly on `quit`, whose `return`
leaves the loop). -/
def handleLine (reg : List (ConnId × String)) (c : ConnId)
    (name now line : String) : List Eff × Bool :=
  match classify line with
  | .ignore => ([], true)
  | .help => (helpWrites c, true)
  | .timeCmd => ([.write c ("Current server time: " ++ now ++ "\n\n")], true)
  | .clientsCmd => (clientsWrites reg c, true)
  | .quit => ([.write c "Goodbye!\n"], false)
  | .chat text => ([.sendMsg (chatLine now name text)], true)

/-- The handler's message loop over the remaining input lines.  When the
stream ends (list exhausted, i.e. `scanner.Scan()` returns false) the
handler falls through to lines 97-99: it sends the connection on
`doneClients` and prints the disconnect notice.  When a line is `quit` the
`return` at line 90 skips that fall-through. -/
def runLines (reg : List (ConnId × String)) (c : ConnId)
    (name addr now : String) : List String → List Eff
  | [] => [Eff.sendDone c,
           Eff.console ("👋 Client '" ++ name ++ "' (" ++ addr ++ ") disconnected\n")]
  | l :: ls =>
      let r := handleLine reg c name now l
      if r.2 then r.1 ++ runLines reg c name addr now ls else r.1

/-- The display name chosen at lines 53-56: the trimmed first input line,
falling back to the remote address when that line is empty. -/
def resolveName (nameLine addr : String) : String :=
  let t := trimSpace nameLine
  if t = "" then addr else t

/-- The welcome banner of line 45. -/
def welcomeBanner (serverTime : String) : String :=
  "Welcome to RISC-V Network Server!\nServer time: " ++ serverTime ++
  "\nType 'help' for commands.\n\n"

/-- `handleConnection` (lines 37-100) as the list of effects it performs.
Parameters stand for ambient values: `reg` is the registry contents the
handler observes when it reads `s.clients` directly, `welcomeTime`/`now`
the wall-clock strings, `nameLine` the first line read after the name
prompt (`none` when the first `scanner.Scan()` fails, i.e. the stream
ended before a name was read), `ls` the subsequent input lines.  The
trailing `close` is the `defer conn.Close()` of line 38, which runs on
every path. -/
def handleConnection (reg : List (ConnId × String)) (c : ConnId)
    (addr welcomeTime now : String) (nameLine : Option String)
    (ls : List String) : List Eff :=
  [ Eff.console ("📡 New connection from: " ++ addr ++ "\n")
  , Eff.write c (welcomeBanner welcomeTime)
  , Eff.write c "Enter your name: " ] ++
  (match nameLine with
   | none => []
   | some nl =>
       let name := resolveName nl addr
       [ Eff.sendNew c
       , Eff.regInsert c name
       , Eff.console ("👤 Client '" ++ name ++ "' (" ++ addr ++ ") joined\n") ] ++
       runLines reg c name addr now ls) ++
  [Eff.close c]

/-- `broadcastToAll` (lines 121-129): write `message` to every registered
connection other than `excludeConn` (`none` models Go `nil`), then mirror
the message to the server console.  `fails` tells which connection writes
would fail; the source discards `conn.Write`'s error result, so the
effects do not depend on it and no `logError` is ever emitted here. -/
def broadcastToAll (_fails : ConnId → Bool) (reg : List (ConnId × String))
    (message : String) (excludeConn : Option ConnId) : List Eff :=
  (reg.filterMap fun p =>
    if excludeConn = some p.1 then none else some (Eff.write p.1 message)) ++
  [Eff.console message]

/-- Lookup of `s.clients[conn]`: the name stored for a connection, `none`
when absent (Go's two-value map read reports `exists = false`, and the
one-value read at line 106 yields the zero value `""`). -/
def lookupName : List (ConnId × String) → ConnId → Option String
  | [], _ => none
  | p :: ps, c => if p.1 = c then some p.2 else lookupName ps c

/-- `delete(s.clients, conn)` (line 111): remove a key; removing an absent
key is a no-op, as in Go. -/
def eraseConn (c : ConnId) : List (ConnId × String) → List (ConnId × String)
  | [] => []
  | p :: ps => if p.1 = c then eraseConn c ps else p :: eraseConn c ps

/-- `s.clients[conn] = name` (line 60): map assignment, replacing any
previous binding for the key. -/
def insertConn (c : ConnId) (name : String) (reg : List (ConnId × String)) :
    List (ConnId × String) :=
  (c, name) :: eraseConn c reg

/-- The three kinds of event the broadcaster consumes, one per channel of
`Server`: `newClients` (join), `doneClients` (leave), `messages` (a chat
line already formatted by the sending handler at line 93). -/
inductive Event : Type
  | join (c : ConnId)
  | leave (c : ConnId)
  | message (s : String)
deriving DecidableEq, Repr

/-- One iteration of `broadcastMessages` (lines 102-119): the `select` arm
taken for `ev`, returning the new registry and the effects performed.
Note the join arm does NOT insert into the registry — the handler already
did that directly at line 60; the coordinator only reads the name (line
106, yielding `""` when the handler's write has not happened yet) and
announces.  The leave arm deletes first, then announces to the remaining
connections. -/
def coordStep (fails : ConnId → Bool) (reg : List (ConnId × String)) :
    Event → List (ConnId × String) × List Eff
  | .join c =>
      (reg, broadcastToAll fails reg
        ("📢 " ++ ((lookupName reg c).getD "") ++ " joined the chat\n") (some c))
  | .leave c =>
      match lookupName reg c with
      | some name =>
          let reg' := eraseConn c reg
          (reg', broadcastToAll fails reg' ("📢 " ++ name ++ " left the chat\n") none)
      | none => (reg, [])
  | .message m => (reg, broadcastToAll fails reg (m ++ "\n") none)

/-- The shutdown notice of line 174. -/
def shutdownNotice : String := "Server is shutting down. Goodbye!\n"

/-- The drain loop of lines 173-176: write the shutdown notice to every
registered connection and close it. -/
def drainEffects (reg : List (ConnId × String)) : List Eff :=
  reg.flatMap (fun p => [Eff.write p.1 shutdownNotice, Eff.close p.1])

/-- What `startServer` does after `<-sigChan` fires (lines 169-179). -/
def startServerAfterSignal (reg : List (ConnId × String)) : List Eff :=
  [Eff.console "\n🛑 Shutting down server gracefully...\n"] ++
  drainEffects reg ++
  [Eff.console "✅ Server shutdown complete\n"]

/-- The value `startServer` returns on the signal path (line 179): `nil`. -/
def startServerShutdownResult : Except String Unit := .ok ()

/-- `main` (lines 182-194): `log.Fatalf` exits with status 1 on a non-nil
error from `startServer`; otherwise `main` returns and the process exits
with status 0. -/
def mainExitCode : Except String Unit → Nat
  | .ok _ => 0
  | .error _ => 1

/-! ### Interleaved executions

Atomic actions of the goroutines, used to model concurrent executions as
traces.  `rendezvousJoin` is the unbuffered send `s.newClients <- conn`
(line 59) meeting the coordinator's receive (line 105) — after it the
handler (line 60) and the coordinator's join arm (lines 106-108) run
concurrently, in either order.  `signal` is `<-sigChan` firing (line 169)
and `drain` the loop of lines 172-176; the accept loop and the handlers
contain no check of any shutdown state, so no action is gated on
`signal`. -/
inductive Act : Type
  | rendezvousJoin (c : ConnId)
  | regInsert (c : ConnId) (name : String)
  | coordJoinAnnounce (c : ConnId)
  | rendezvousLeave (c : ConnId)
  | coordLeave (c : ConnId)
  | coordMessage (s : String)
  | signal
  | drain
deriving DecidableEq, Repr

/-- How one atomic action transforms the `s.clients` registry.  Only the
handler's direct insert (line 60) and the coordinator's delete (line 111)
touch it. -/
def actStep (reg : List (ConnId × String)) : Act → List (ConnId × String)
  | .regInsert c n => insertConn c n reg
  | .coordLeave c => eraseConn c reg
  | _ => reg

/-- Registry contents after executing a trace from the empty registry. -/
def registryOf (tr : List Act) : List (ConnId × String) :=
  tr.foldl actStep []

/-- Socket writes (and drain closes) an action performs, given the registry
at the moment it runs.  Failed writes are ignored by the source, so none
of this depends on write outcomes. -/
def actWrites (reg : List (ConnId × String)) : Act → List Eff
  | .coordJoinAnnounce c =>
      broadcastToAll (fun _ => false) reg
        ("📢 " ++ ((lookupName reg c).getD "") ++ " joined the chat\n") (some c)
  | .coordLeave c =>
      match lookupName reg c with
      | some name =>
          broadcastToAll (fun _ => false) (eraseConn c reg)
            ("📢 " ++ name ++ " left the chat\n") none
      | none => []
  | .coordMessage m => broadcastToAll (fun _ => false) reg (m ++ "\n") none
  | .drain => startServerAfterSignal reg
  | _ => []

/-- All write effects of a trace, accumulated with the registry state each
action observes. -/
def traceEffs (reg : List (ConnId × String)) : List Act → List Eff
  | [] => []
  | a :: tr => actWrites reg a ++ traceEffs (actStep reg a) tr

/-- All write effects of a trace run from the empty registry. -/
def writesOf (tr : List Act) : List Eff :=
  traceEffs [] tr

/-- Recognizers for the trace actions of one connection. -/
def isRendezvousJoin (c : ConnId) : Act → Bool
  | .rendezvousJoin c' => c' == c
  | _ => false

def isRegInsert (c : ConnId) : Act → Bool
  | .regInsert c' _ => c' == c
  | _ => false

def isJoinAnnounce (c : ConnId) : Act → Bool
  | .coordJoinAnnounce c' => c' == c
  | _ => false

def isRendezvousLeave (c : ConnId) : Act → Bool
  | .rendezvousLeave c' => c' == c
  | _ => false

def isCoordLeave (c : ConnId) : Act → Bool
  | .coordLeave c' => c' == c
  | _ => false

def isSignal : Act → Bool
  | .signal => true
  | _ => false

/-- Whether an action is enabled given the actions already executed
(`seen`).  This encodes the program order of each goroutine and the
channel synchronizations of the source: a handler's registry insert (line
60) and the coordinator's join announcement (lines 106-108) each require
the join rendezvous to have happened, but impose no order on EACH OTHER —
after the unbuffered send completes, handler and coordinator run
concurrently.  A handler leaves only after it inserted itself, and the
coordinator processes a leave only after that rendezvous.  `drain`
requires the signal.  Nothing else is gated on `signal`: the source's
accept loop and handlers never consult any shutdown state. -/
def actEnabled (seen : List Act) : Act → Bool
  | .rendezvousJoin c => !(seen.any (isRendezvousJoin c))
  | .regInsert c _ => seen.any (isRendezvousJoin c) && !(seen.any (isRegInsert c))
  | .coordJoinAnnounce c =>
      seen.any (isRendezvousJoin c) && !(seen.any (isJoinAnnounce c))
  | .rendezvousLeave c =>
      seen.any (isRegInsert c) && !(seen.any (isRendezvousLeave c))
  | .coordLeave c =>
      seen.any (isRendezvousLeave c) && !(seen.any (isCoordLeave c))
  | .coordMessage _ => true
  | .signal => true
  | .drain => seen.any isSignal

/-- A trace is valid when every action is enabled at its position. -/
def validFrom (seen : List Act) : List Act → Bool
  | [] => true
  | a :: tr => actEnabled seen a && validFrom (a :: seen) tr

def validTrace (tr : List Act) : Bool := validFrom [] tr

/-- The coordinator has processed connection `c`'s Join event (its join
arm, lines 106-108, has run for `c`). -/
def joinProcessed (c : ConnId) (tr : List Act) : Bool :=
  tr.any (isJoinAnnounce c)

/-- The coordinator has processed a Leave event for connection `c` (its
leave arm, lines 109-114, has run for `c`). -/
def leaveProcessed (c : ConnId) (tr : List Act) : Bool :=
  tr.any (isCoordLeave c)

/-- Spec-side presence: walking the trace from the end, a connection is
present with name `n` when the most recent registry action touching it is
an insert of `n`, and absent when it is a delete (or there is none).  The
helper walks the REVERSED trace. -/
def lastRegAction (c : ConnId) : List Act → Option String
  | [] => none
  | a :: tr =>
      match a with
      | .regInsert c' n => if c' = c then some n else lastRegAction c tr
      | .coordLeave c' => if c' = c then none else lastRegAction c tr
      | _ => lastRegAction c tr

/-- Spec-side presence of a connection after a trace. -/
def specPresence (c : ConnId) (tr : List Act) : Option String :=
  lastRegAction c tr.reverse

/-- An effect that accesses the `s.clients` registry directly (a write at
line 60 or a read at lines 83-86). -/
def isRegAccess : Eff → Bool
  | .regInsert _ _ => true
  | .regRead _ => true
  | _ => false

/-- A Leave event emission: a send on the `doneClients` channel. -/
def isLeaveEvent : Eff → Bool
  | .sendDone _ => true
  | _ => false

/-- A registration or event emission: a send on any of the three channels,
or a direct registry access.  `handleConnection` performs none of these
when the first read after the name prompt fails. -/
def isEventEff : Eff → Bool
  | .sendNew _ => true
  | .sendDone _ => true
  | .sendMsg _ => true
  | .regInsert _ _ => true
  | .regRead _ => true
  | _ => false

/-- A `log.Printf` effect (the source's only logging facility besides
`fmt.Print*`). -/
def isErrorLog : Eff → Bool
  | .logError _ => true
  | _ => false



/-! ### Helper lemmas -/

theorem lookupName_eraseConn (c' c : ConnId) (reg : List (ConnId × String)) :
    lookupName (eraseConn c' reg) c = if c' = c then none else lookupName reg c := by
  induction reg with
  | nil => simp [eraseConn, lookupName]
  | cons p ps ih =>
      by_cases h1 : p.1 = c'
      · rw [eraseConn, if_pos h1, ih]
        by_cases h2 : c' = c
        · simp [h2]
        · have hp : ¬ p.1 = c := fun h => h2 (h1.symm.trans h)
          rw [if_neg h2, lookupName, if_neg hp, if_neg h2]
      · rw [eraseConn, if_neg h1, lookupName]
        by_cases h2 : p.1 = c
        · have hcc : ¬ c' = c := fun h => h1 (h2.trans h.symm)
          rw [if_pos h2, if_neg hcc, lookupName, if_pos h2]
        · rw [if_neg h2, ih, lookupName, if_neg h2]

theorem lookupName_insertConn (c' c : ConnId) (n : String)
    (reg : List (ConnId × String)) :
    lookupName (insertConn c' n reg) c =
      if c' = c then some n else lookupName reg c := by
  by_cases h : c' = c
  · simp [insertConn, lookupName, h]
  · simp [insertConn, lookupName, h, lookupName_eraseConn]

theorem registryOf_append (tr : List Act) (a : Act) :
    registryOf (tr ++ [a]) = actStep (registryOf tr) a := by
  simp [registryOf, List.foldl_append]

theorem actEnabled_append_signal (seen : List Act) (a : Act)
    (h : actEnabled seen a = true) :
    actEnabled (seen ++ [Act.signal]) a = true := by
  cases a <;>
    simp_all [actEnabled, List.any_append, isRendezvousJoin, isRegInsert,
      isJoinAnnounce, isRendezvousLeave, isCoordLeave, isSignal]

theorem validFrom_append_signal (tr : List Act) :
    ∀ seen : List Act, validFrom seen tr = true →
      validFrom (seen ++ [Act.signal]) tr = true := by
  induction tr with
  | nil => intro seen _; rfl
  | cons a tr ih =>
      intro seen h
      rw [validFrom, Bool.and_eq_true] at h
      rw [validFrom, Bool.and_eq_true]
      refine ⟨actEnabled_append_signal seen a h.1, ?_⟩
      have := ih (a :: seen) h.2
      simpa using this

/-! ### Claims -/

/-- Claim C1, counterexample: it is NOT the case that handler code never
reads or writes the `s.clients` registry.  `handleConnection` for a client
that registers as "Alice" performs a direct registry write (line 60 of the
source), refuting "the registry is mutated exclusively by the Broadcast
Coordinator task and no handler ever writes to or reads from it". -/
theorem handler_accesses_registry_directly :
    ¬ (∀ (reg : List (ConnId × String)) (c : ConnId) (addr wt now : String)
        (nl : Option String) (ls : List String),
        (handleConnection reg c addr wt now nl ls).filter isRegAccess = []) := by
  intro h
  exact absurd (h [] 1 "10.0.0.7:5000" "T" "12:00:00" (some "Alice") []) (by decide)

/-- Claim C1, amended: every handler that gets past the name prompt writes
its own entry directly into the registry (line 60), and a handler serving
the `clients` command reads the registry directly (lines 83-86); the
registry is therefore not accessed via message passing alone. -/
theorem handler_inserts_and_reads_registry (reg : List (ConnId × String)) (c : ConnId)
    (addr wt now nl : String) (ls : List String) :
    Eff.regInsert c (resolveName nl addr) ∈
      handleConnection reg c addr wt now (some nl) ls ∧
    Eff.regRead c ∈ handleConnection reg c addr wt now (some nl) ["clients"] := by
  constructor
  · simp [handleConnection]
  · have hc : classify "clients" = .clientsCmd := by decide
    simp [handleConnection, runLines, handleLine, hc, clientsWrites]

/-- Claim C2 (code bug): a registered client ("Alice") that sends `quit`
receives the farewell line and its connection is closed (the deferred
`conn.Close()`), but the handler's `return` at line 90 skips the
`doneClients` send at line 98, so ZERO Leave events are emitted — not the
exactly one the claim requires — and the client, though registered
(`regInsert` present), is never removed from the registry. -/
theorem quit_emits_no_leave_event :
    Eff.write 1 "Goodbye!\n" ∈
      handleConnection [] 1 "10.0.0.7:5000" "T" "12:00:00" (some "Alice") ["quit"] ∧
    Eff.close 1 ∈
      handleConnection [] 1 "10.0.0.7:5000" "T" "12:00:00" (some "Alice") ["quit"] ∧
    (handleConnection [] 1 "10.0.0.7:5000" "T" "12:00:00" (some "Alice") ["quit"]).filter
      isLeaveEvent = [] ∧
    Eff.regInsert 1 "Alice" ∈
      handleConnection [] 1 "10.0.0.7:5000" "T" "12:00:00" (some "Alice") ["quit"] := by
  decide

/-- Claim C3, counterexample: the invariant "H is in the registry iff H's
Join event has been processed and no later Leave for H has been processed"
fails.  In the valid interleaving where the coordinator's join arm (lines
106-108) runs right after the channel rendezvous but before the handler's
registry insert (line 60), connection 1's Join has been processed, no
Leave has been processed, yet the registry does not contain 1. -/
theorem registry_lags_join_processing :
    ¬ (∀ tr : List Act, validTrace tr = true → ∀ c : ConnId,
        (lookupName (registryOf tr) c).isSome =
          (joinProcessed c tr && !leaveProcessed c tr)) := by
  intro h
  exact absurd (h [.rendezvousJoin 1, .coordJoinAnnounce 1] (by decide) 1) (by decide)

/-- Claim C3, amended: at every point of every execution, a connection is
present in the registry (with name n) iff the most recent registry action
for it is the handler's direct insertion of n (line 60) with no
coordinator deletion (line 111) after it — presence tracks the handler's
insert, not the coordinator's processing of the Join event, because the
two race after the channel rendezvous. -/
theorem registry_presence_characterization (tr : List Act) (c : ConnId) :
    lookupName (registryOf tr) c = specPresence c tr := by
  induction tr using List.reverseRecOn with
  | nil => rfl
  | append_singleton tr a ih =>
      rw [registryOf_append]
      unfold specPresence
      rw [List.reverse_append]
      simp only [List.reverse_singleton, List.singleton_append]
      cases a with
      | regInsert c' nm =>
          rw [show actStep (registryOf tr) (Act.regInsert c' nm) =
                insertConn c' nm (registryOf tr) from rfl,
              lookupName_insertConn]
          by_cases h : c' = c
          · simp [lastRegAction, h]
          · simp only [lastRegAction, if_neg h, if_neg h]
            exact ih
      | coordLeave c' =>
          rw [show actStep (registryOf tr) (Act.coordLeave c') =
                eraseConn c' (registryOf tr) from rfl,
              lookupName_eraseConn]
          by_cases h : c' = c
          · simp [lastRegAction, h]
          · simp only [lastRegAction, if_neg h]
            exact ih
      | rendezvousJoin c' => simpa [actStep, lastRegAction] using ih
      | coordJoinAnnounce c' => simpa [actStep, lastRegAction] using ih
      | rendezvousLeave c' => simpa [actStep, lastRegAction] using ih
      | coordMessage m => simpa [actStep, lastRegAction] using ih
      | signal => simpa [actStep, lastRegAction] using ih
      | drain => simpa [actStep, lastRegAction] using ih

/-- Claim C4, counterexample: after the termination signal has been
received (it is the very first action of the trace, and the drain has even
already run), a handler can still register: the trace is valid, connection
1 ends up IN the registry, and the shutdown notice is never written to it
— refuting "no further Join is accepted once Draining begins; a handler
registering after that point is told the server is shutting down and
closed without entering the registry". -/
theorem join_after_signal_enters_registry_unnotified :
    ¬ (∀ tr : List Act, validTrace tr = true → tr.head? = some Act.signal →
        ∀ c : ConnId, tr.any (isRegInsert c) = true →
        (lookupName (registryOf tr) c = none ∧
         Eff.write c shutdownNotice ∈ writesOf tr)) := by
  intro h
  have := h [.signal, .drain, .rendezvousJoin 1, .coordJoinAnnounce 1, .regInsert 1 "Alice"]
    (by decide) (by decide) 1 (by decide)
  exact absurd this.1 (by decide)

/-- Claim C4, amended: receipt of the termination signal gates nothing in
the source — no handler or coordinator action consults any shutdown state
— so every valid execution remains valid, with identical registry contents
and identical writes, when the signal arrives before it.  In particular a
handler can register after Draining begins, enters the registry, and is
never told the server is shutting down. -/
theorem signal_receipt_gates_no_behavior (tr : List Act)
    (h : validTrace tr = true) :
    validTrace (Act.signal :: tr) = true ∧
    registryOf (Act.signal :: tr) = registryOf tr ∧
    writesOf (Act.signal :: tr) = writesOf tr := by
  refine ⟨?_, rfl, rfl⟩
  have := validFrom_append_signal tr [] h
  simpa [validTrace, validFrom, actEnabled] using this

/-- Witness for `signal_receipt_gates_no_behavior` at a concrete valid
trace in which connection 2 joins and registers. -/
theorem signal_receipt_gates_no_behavior_witness :
    validTrace [Act.rendezvousJoin 2, Act.regInsert 2 "Bob"] = true ∧
    (validTrace (Act.signal :: [Act.rendezvousJoin 2, Act.regInsert 2 "Bob"]) = true ∧
     registryOf (Act.signal :: [Act.rendezvousJoin 2, Act.regInsert 2 "Bob"]) =
       registryOf [Act.rendezvousJoin 2, Act.regInsert 2 "Bob"] ∧
     writesOf (Act.signal :: [Act.rendezvousJoin 2, Act.regInsert 2 "Bob"]) =
       writesOf [Act.rendezvousJoin 2, Act.regInsert 2 "Bob"]) :=
  ⟨by decide, signal_receipt_gates_no_behavior _ (by decide)⟩

/-- Claim C5: for every Message event, the line the handler constructs
(line 93) is exactly `[HH:MM:SS] name: text`, and the coordinator's
message arm (lines 115-116) delivers it, newline-terminated, to every
currently-registered connection — the registry is split as
`pre ++ (c, cn) :: post`, so `c` ranges over all registered connections,
the sender included (the exclude argument is `nil`). -/
theorem message_broadcast_includes_every_registered_connection
    (fails : ConnId → Bool) (pre post : List (ConnId × String)) (c : ConnId)
    (cn ts name text : String) :
    chatLine ts name text = "[" ++ ts ++ "] " ++ name ++ ": " ++ text ∧
    Eff.write c (chatLine ts name text ++ "\n") ∈
      (coordStep fails (pre ++ (c, cn) :: post) (Event.message (chatLine ts name text))).2 := by
  refine ⟨rfl, ?_⟩
  simp only [coordStep, broadcastToAll, List.mem_append, List.mem_filterMap]
  left
  exact ⟨(c, cn), by simp, by simp⟩

/-- Claim C6: the source's line classification (trim, skip empty, switch
on the lower-cased text over `help`/`time`/`clients`/`quit`, chat
otherwise) agrees with the specification's classification on every input
line. -/
theorem classify_matches_spec (line : String) : classify line = specClassify line := by
  simp only [classify, specClassify]
  by_cases h0 : trimSpace line = ""
  · simp [h0]
  · simp only [h0, if_neg, ite_false]
    split
    all_goals simp_all

/-- Claim C7: upon the termination signal, `startServer` writes the
shutdown notice to every currently-registered connection (the registry is
split as `pre ++ (c, n) :: post`, so `c` ranges over all of them), closes
every such connection, returns `nil`, and `main` therefore exits with
status 0. -/
theorem shutdown_notifies_closes_all_and_exits_zero
    (pre post : List (ConnId × String)) (c : ConnId) (n : String) :
    Eff.write c shutdownNotice ∈ startServerAfterSignal (pre ++ (c, n) :: post) ∧
    Eff.close c ∈ startServerAfterSignal (pre ++ (c, n) :: post) ∧
    mainExitCode startServerShutdownResult = 0 := by
  refine ⟨?_, ?_, rfl⟩ <;>
  · simp only [startServerAfterSignal, drainEffects, List.mem_append, List.mem_cons,
      List.mem_flatMap]
    exact Or.inl (Or.inr ⟨(c, n), by simp, by simp⟩)

/-- Claim C8, counterexample: `broadcastToAll` discards `conn.Write`'s
error result entirely, so a per-connection write failure, while indeed
swallowed, is NOT logged: with connection 1 failing, the produced effects
contain no `log.Printf` effect at all, refuting "the failure is swallowed
and logged". -/
theorem broadcast_write_failure_not_logged :
    ¬ (∀ (fails : ConnId → Bool) (reg : List (ConnId × String)) (msg : String)
        (excl : Option ConnId), (∃ p ∈ reg, fails p.1 = true) →
        ((∀ p ∈ reg, excl ≠ some p.1 →
            Eff.write p.1 msg ∈ broadcastToAll fails reg msg excl) ∧
         ∃ e ∈ broadcastToAll fails reg msg excl, isErrorLog e = true)) := by
  intro h
  exact absurd (h (fun c => c == 1) [(1, "A"), (2, "B")] "m" none
    ⟨(1, "A"), by simp, by simp⟩).2 (by decide)

/-- Claim C8, amended: during any broadcast a write failure on one
connection never stops delivery to the remaining registered connections
and is never escalated — every non-excluded connection is attempted, the
broadcast behaves identically to one with no failures at all (the error
result is silently discarded), and no error log is emitted. -/
theorem write_failures_never_stop_or_escalate_broadcast
    (fails : ConnId → Bool) (pre post : List (ConnId × String)) (c : ConnId)
    (n msg : String) (excl : Option ConnId) (hx : excl ≠ some c) :
    Eff.write c msg ∈ broadcastToAll fails (pre ++ (c, n) :: post) msg excl ∧
    broadcastToAll fails (pre ++ (c, n) :: post) msg excl =
      broadcastToAll (fun _ => false) (pre ++ (c, n) :: post) msg excl ∧
    (broadcastToAll fails (pre ++ (c, n) :: post) msg excl).filter isErrorLog = [] := by
  refine ⟨?_, rfl, ?_⟩
  · simp only [broadcastToAll, List.mem_append, List.mem_filterMap]
    left
    exact ⟨(c, n), by simp, by simp [hx]⟩
  · rw [List.filter_eq_nil_iff]
    intro e he
    simp only [broadcastToAll, List.mem_append, List.mem_filterMap,
      List.mem_singleton] at he
    rcases he with ⟨p, _, hp⟩ | he
    · split at hp
      · exact absurd hp (by simp)
      · cases Option.some.inj hp
        simp [isErrorLog]
    · simp [he, isErrorLog]

/-- Witness for `write_failures_never_stop_or_escalate_broadcast`:
connection 1's write fails, yet connection 2 is still attempted, the
effects equal the failure-free run, and nothing is logged. -/
theorem write_failures_never_stop_or_escalate_broadcast_witness :
    Eff.write 2 "hello" ∈
      broadcastToAll (fun c => c == 1) ([] ++ (2, "B") :: [(1, "A")]) "hello" none ∧
    broadcastToAll (fun c => c == 1) ([] ++ (2, "B") :: [(1, "A")]) "hello" none =
      broadcastToAll (fun _ => false) ([] ++ (2, "B") :: [(1, "A")]) "hello" none ∧
    (broadcastToAll (fun c => c == 1) ([] ++ (2, "B") :: [(1, "A")]) "hello" none).filter
      isErrorLog = [] :=
  write_failures_never_stop_or_escalate_broadcast (fun c => c == 1) [] [(1, "A")] 2 "B"
    "hello" none (by decide)

/-- Claim C9, counterexample: the `clients` output is not invariant under
the iteration order of the `s.clients` map, and Go specifies no map
iteration order (the runtime randomizes it), so two consecutive queries
over the SAME registry — two permutations of the same entries — can
produce different output: with entries Alice and Bob, the two orders give
different strings, refuting "character-for-character identical output". -/
theorem clients_output_depends_on_iteration_order :
    ¬ (∀ r1 r2 : List (ConnId × String), r1.Perm r2 →
        clientsOutput r1 = clientsOutput r2) := by
  intro h
  exact absurd
    (h [(1, "Alice"), (2, "Bob")] [(2, "Bob"), (1, "Alice")] (List.Perm.swap _ _ _))
    (by decide)

/-- Claim C9, amended: two consecutive `clients` queries with no Join or
Leave processed in between (two iteration orders of the same map, i.e.
permutations of the same entries) report the identical header — same
client count — and the same multiset of display-name lines, though not
necessarily in the same order. -/
theorem clients_queries_agree_up_to_order (r1 r2 : List (ConnId × String))
    (h : r1.Perm r2) :
    clientsHeader r1 = clientsHeader r2 ∧
    (r1.map clientNameLine).Perm (r2.map clientNameLine) :=
  ⟨by simp [clientsHeader, h.length_eq], h.map _⟩

/-- Witness for `clients_queries_agree_up_to_order` on a two-client
registry observed in its two iteration orders. -/
theorem clients_queries_agree_up_to_order_witness :
    clientsHeader [(3, "Carol"), (4, "Dan")] = clientsHeader [(4, "Dan"), (3, "Carol")] ∧
    (([(3, "Carol"), (4, "Dan")] : List (ConnId × String)).map clientNameLine).Perm
      ([(4, "Dan"), (3, "Carol")].map clientNameLine) :=
  clients_queries_agree_up_to_order _ _ (List.Perm.swap _ _ _)

/-- Claim C10: when the very first read after the name prompt fails
(`scanner.Scan()` returns false, modelled by `nameLine = none`), the
handler returns immediately: whatever the registry, the input, or the
clock, it performs no registry access and emits no Join, Leave, or Message
event (the filtered effect list is empty — only the banner, the prompt and
the deferred close remain). -/
theorem eof_before_name_no_registration (reg : List (ConnId × String)) (c : ConnId)
    (addr wt now : String) (ls : List String) :
    (handleConnection reg c addr wt now none ls).filter isEventEff = [] := by
  rfl
